import Mathlib

/-!
Verification of `generate_icon.py` (MacFileTransferApp).

The script draws a fixed vector scene — a rounded-rectangle background
overlay, two rounded "pane" rectangles each holding a vertical stack of
accent bars, and two opposing arrows (rectangular shaft plus triangular
head) — onto a 1024 by 1024 RGB canvas, exports ten resized PNG copies
into `AppIcon.appiconset/`, and writes a static `Contents.json` manifest.

The embedding below models the canvas as a pixel function, the drawing
primitives as an ordered list with an integer region semantics, and the
filesystem as a function from path names to optional file data.
-/

namespace GenerateIcon

/-- An RGB color, one byte per channel. -/
structure Color where
  r : Nat
  g : Nat
  b : Nat
deriving DecidableEq

/-- PIL image modes the script could use; `generate_icon.py` line 8 uses RGB. -/
inductive Mode
  | RGB
  | RGBA
deriving DecidableEq

/-- An in-memory raster image: mode, dimensions, RGB channels per pixel, and
an alpha channel that is meaningful only in RGBA mode (PIL RGB images store
no alpha). -/
structure Image where
  mode : Mode
  width : Nat
  height : Nat
  px : Nat → Nat → Color
  alphaCh : Nat → Nat → Nat

/-- Embeds `Image.new(mode, (w, h), color)` for an opaque fill color. -/
def Image.new (m : Mode) (w h : Nat) (c : Color) : Image :=
  { mode := m, width := w, height := h, px := fun _ _ => c, alphaCh := fun _ _ => 255 }

/-- The color literal of `Image.new('RGB', (size, size), color='#2C3E50')`, line 8. -/
def canvas_init_color : Color := ⟨0x2C, 0x3E, 0x50⟩

/-- Named constant `bg_color = '#2C3E50'`, line 12. -/
def bg_color : Color := ⟨0x2C, 0x3E, 0x50⟩

/-- Named constant `pane_color = '#ECF0F1'`, line 13. -/
def pane_color : Color := ⟨0xEC, 0xF0, 0xF1⟩

/-- Named constant `accent_color = '#3498DB'`, line 14. -/
def accent_color : Color := ⟨0x34, 0x98, 0xDB⟩

/-- Named constant `arrow_color = '#E74C3C'`, line 15. -/
def arrow_color : Color := ⟨0xE7, 0x4C, 0x3C⟩

/-- `margin = 80`, line 18. -/
def margin : Int := 80

/-- `left_pane_x = 150`, line 26. -/
def left_pane_x : Int := 150

/-- `left_pane_y = 200`, line 27. -/
def left_pane_y : Int := 200

/-- `pane_width = 320`, line 28. -/
def pane_width : Int := 320

/-- `pane_height = 624`, line 29. -/
def pane_height : Int := 624

/-- `right_pane_x = 554`, line 37. -/
def right_pane_x : Int := 554

/-- `file_y_start = 250`, line 45. -/
def file_y_start : Int := 250

/-- `file_height = 50`, line 46. -/
def file_height : Int := 50

/-- `file_spacing = 70`, line 47. -/
def file_spacing : Int := 70

/-- `arrow_y = 512`, line 66. -/
def arrow_y : Int := 512

/-- `arrow_start_x = left_pane_x + pane_width + 20`, line 67. -/
def arrow_start_x : Int := left_pane_x + pane_width + 20

/-- `arrow_end_x = right_pane_x - 20`, line 68. -/
def arrow_end_x : Int := right_pane_x - 20

/-- `arrow_width = 25`, line 69. -/
def arrow_width : Int := 25

/-- `arrow_y2 = 612`, line 86. -/
def arrow_y2 : Int := 612

/-- A drawing primitive of the scene: a rounded rectangle, a rectangle, or a
triangle polygon, each with its fill color. Triangle vertices are listed in
the source order of the point list passed to `draw.polygon`. -/
inductive Prim
  | rrect (x0 y0 x1 y1 radius : Int) (c : Color)
  | rect (x0 y0 x1 y1 : Int) (c : Color)
  | poly (ax ay bx0 by0 cx cy : Int) (c : Color)
deriving DecidableEq

/-- Squared-distance test against a corner center, used by the rounded
rectangle region. -/
def inCorner (cx cy radius x y : Int) : Bool :=
  decide ((x - cx) * (x - cx) + (y - cy) * (y - cy) ≤ radius * radius)

/-- Region of `draw.rounded_rectangle([x0, y0, x1, y1], radius)`: the
bounding box minus the four corner squares outside their quarter discs. -/
def inRoundedRect (x0 y0 x1 y1 radius x y : Int) : Bool :=
  (decide (x0 ≤ x) && decide (x ≤ x1) && decide (y0 ≤ y) && decide (y ≤ y1)) &&
  (!(decide (x < x0 + radius) && decide (y < y0 + radius)) || inCorner (x0 + radius) (y0 + radius) radius x y) &&
  (!(decide (x1 - radius < x) && decide (y < y0 + radius)) || inCorner (x1 - radius) (y0 + radius) radius x y) &&
  (!(decide (x < x0 + radius) && decide (y1 - radius < y)) || inCorner (x0 + radius) (y1 - radius) radius x y) &&
  (!(decide (x1 - radius < x) && decide (y1 - radius < y)) || inCorner (x1 - radius) (y1 - radius) radius x y)

/-- Edge function (cross product) for the triangle membership test. -/
def triCross (ax ay bx0 by0 x y : Int) : Int :=
  (bx0 - ax) * (y - ay) - (by0 - ay) * (x - ax)

/-- Region of `draw.polygon([(ax, ay), (bx0, by0), (cx, cy)])`: the point lies
on one common side of all three directed edges. -/
def inTriangle (ax ay bx0 by0 cx cy x y : Int) : Bool :=
  (decide (0 ≤ triCross ax ay bx0 by0 x y) && decide (0 ≤ triCross bx0 by0 cx cy x y) &&
    decide (0 ≤ triCross cx cy ax ay x y)) ||
  (decide (triCross ax ay bx0 by0 x y ≤ 0) && decide (triCross bx0 by0 cx cy x y ≤ 0) &&
    decide (triCross cx cy ax ay x y ≤ 0))

/-- The set of pixels a primitive fills. -/
def primRegion : Prim → Int → Int → Bool
  | .rrect x0 y0 x1 y1 radius _, x, y => inRoundedRect x0 y0 x1 y1 radius x y
  | .rect x0 y0 x1 y1 _, x, y =>
      decide (x0 ≤ x) && decide (x ≤ x1) && decide (y0 ≤ y) && decide (y ≤ y1)
  | .poly ax ay bx0 by0 cx cy _, x, y => inTriangle ax ay bx0 by0 cx cy x y

/-- The fill color of a primitive. -/
def primColor : Prim → Color
  | .rrect _ _ _ _ _ c => c
  | .rect _ _ _ _ c => c
  | .poly _ _ _ _ _ _ c => c

/-- Drawing a primitive overwrites the RGB value of every pixel in its
region; the mode, dimensions, and alpha channel are untouched. -/
def drawPrim (img : Image) (p : Prim) : Image :=
  { img with px := fun x y => if primRegion p (Int.ofNat x) (Int.ofNat y) then primColor p else img.px x y }

/-- The rounded-rectangle background overlay, lines 19-23:
`[margin, margin, size-margin, size-margin]`, radius 120, fill `bg_color`. -/
def backgroundRRect (size : Int) : Prim :=
  .rrect margin margin (size - margin) (size - margin) 120 bg_color

/-- The left pane, lines 30-34. -/
def leftPane : Prim :=
  .rrect left_pane_x left_pane_y (left_pane_x + pane_width) (left_pane_y + pane_height) 30 pane_color

/-- The right pane, lines 38-42 (same y extent as the left pane). -/
def rightPane : Prim :=
  .rrect right_pane_x left_pane_y (right_pane_x + pane_width) (left_pane_y + pane_height) 30 pane_color

/-- The five accent bars of the left pane, lines 48-54:
`for i in range(5): y = file_y_start + i * file_spacing`. -/
def leftBars : List Prim :=
  (List.range 5).map fun i =>
    .rrect (left_pane_x + 30) (file_y_start + (i : Int) * file_spacing)
      (left_pane_x + pane_width - 30) (file_y_start + (i : Int) * file_spacing + file_height)
      8 accent_color

/-- The three accent bars of the right pane, lines 57-63. -/
def rightBars : List Prim :=
  (List.range 3).map fun i =>
    .rrect (right_pane_x + 30) (file_y_start + (i : Int) * file_spacing)
      (right_pane_x + pane_width - 30) (file_y_start + (i : Int) * file_spacing + file_height)
      8 accent_color

/-- The right-pointing arrow's shaft, lines 72-75. -/
def rightArrowShaft : Prim :=
  .rect arrow_start_x (arrow_y - arrow_width / 2) (arrow_end_x - 40) (arrow_y + arrow_width / 2) arrow_color

/-- The right-pointing arrow's head, lines 78-83. -/
def rightArrowHead : Prim :=
  .poly (arrow_end_x - 40) (arrow_y - 50) arrow_end_x arrow_y (arrow_end_x - 40) (arrow_y + 50) arrow_color

/-- The left-pointing arrow's shaft, lines 89-92. -/
def leftArrowShaft : Prim :=
  .rect (arrow_start_x + 40) (arrow_y2 - arrow_width / 2) arrow_end_x (arrow_y2 + arrow_width / 2) arrow_color

/-- The left-pointing arrow's head, lines 95-100. -/
def leftArrowHead : Prim :=
  .poly (arrow_start_x + 40) (arrow_y2 - 50) arrow_start_x arrow_y2 (arrow_start_x + 40) (arrow_y2 + 50) arrow_color

/-- All drawing calls of lines 17-100 in source order. -/
def scenePrims (size : Int) : List Prim :=
  [backgroundRRect size, leftPane, rightPane] ++ leftBars ++ rightBars ++
  [rightArrowShaft, rightArrowHead, leftArrowShaft, leftArrowHead]

/-- The scene with the rounded-rectangle background overlay step removed,
following the claimed variant; everything else is unchanged. -/
def scenePrimsNoOverlay (_size : Int) : List Prim :=
  [leftPane, rightPane] ++ leftBars ++ rightBars ++
  [rightArrowShaft, rightArrowHead, leftArrowShaft, leftArrowHead]

/-- The rendering step of `create_app_icon` (lines 7-100), exposed over the
canvas size exactly as the design contract describes it; the script runs it
with the local constant `size = 1024`. -/
def render_icon (canvas_size : Nat) : Image :=
  (scenePrims (Int.ofNat canvas_size)).foldl drawPrim
    (Image.new Mode.RGB canvas_size canvas_size canvas_init_color)

/-- The claimed variant renderer: identical to `render_icon` except that the
rounded-rectangle background overlay step is removed. -/
def render_icon_no_overlay (canvas_size : Nat) : Image :=
  (scenePrimsNoOverlay (Int.ofNat canvas_size)).foldl drawPrim
    (Image.new Mode.RGB canvas_size canvas_size canvas_init_color)

/-- The coordinates (x or y values) appearing in a primitive; the rounding
radius is not a coordinate. -/
def primCoords : Prim → List Int
  | .rrect x0 y0 x1 y1 _ _ => [x0, y0, x1, y1]
  | .rect x0 y0 x1 y1 _ => [x0, y0, x1, y1]
  | .poly ax ay bx0 by0 cx cy _ => [ax, ay, bx0, by0, cx, cy]

/-- Top y coordinate of a rounded-rectangle bar. -/
def barTop : Prim → Int
  | .rrect _ y0 _ _ _ _ => y0
  | _ => 0

/-- Vertical extent `y1 - y0` of a rectangle primitive. -/
def rectHeight : Prim → Int
  | .rect _ y0 _ y1 _ => y1 - y0
  | _ => 0

/-- Vertical extent of a triangle's base edge, the edge joining its first
and third vertices (the two non-tip vertices of both arrow heads). -/
def polyBaseExtent : Prim → Int
  | .poly _ ay _ _ _ cy _ => cy - ay
  | _ => 0

/-- Contents a path can hold: a raster image (PNG) or a text file. -/
inductive FileData
  | png (img : Image)
  | text (s : String)

/-- The filesystem, as a map from path names to their contents. -/
def FS : Type := String → Option FileData

/-- Writing a file binds its path, silently overwriting any previous
contents, and leaves every other path unchanged. -/
def writeFile (fs : FS) (name : String) (d : FileData) : FS :=
  fun n => if n = name then some d else fs n

/-- The filesystem with no files, used to instantiate witnesses. -/
def fsEmpty : FS := fun _ => none

/-- `output_dir = 'AppIcon.appiconset'`, line 103. -/
def output_dir : String := "AppIcon.appiconset"

/-- The `sizes` list of lines 107-118: the ten (pixel dimension, role) export
targets, in source order. -/
def sizes : List (Nat × String) :=
  [(16, "16x16"), (32, "16x16@2x"), (32, "32x32"), (64, "32x32@2x"),
   (128, "128x128"), (256, "128x128@2x"), (256, "256x256"), (512, "256x256@2x"),
   (512, "512x512"), (1024, "512x512@2x")]

/-- Path of an exported icon, per line 122: `output_dir ++ "/icon_" ++ name ++ ".png"`. -/
def iconFileName (name : String) : String := output_dir ++ "/icon_" ++ name ++ ".png"

/-- Path of the manifest file written at line 195. -/
def contentsPath : String := output_dir ++ "/Contents.json"

/-- Embeds `img.resize((w, h), Image.Resampling.LANCZOS)`, line 121: the
result has exactly the requested dimensions and the source's mode, and its
channels are a deterministic function of the source's channels. The Lanczos
kernel itself computes convolution weights in floating point, so the model
samples the source at the proportionally scaled coordinate; no theorem
below depends on the resampled channel values, only on dimensions, mode,
and the fact that equal sources resize to equal results. -/
def Image.resize (img : Image) (w h : Nat) : Image :=
  { mode := img.mode, width := w, height := h,
    px := fun x y => img.px (x * img.width / w) (y * img.height / h),
    alphaCh := fun x y => img.alphaCh (x * img.width / w) (y * img.height / h) }

/-- The `for pixel_size, name in sizes` loop of lines 120-123: resize the
rendered canvas to each target and save it under `icon_<name>.png`. -/
def writeIcons (img : Image) : List (Nat × String) → FS → FS
  | [], fs => fs
  | (pixel_size, name) :: rest, fs =>
      writeIcons img rest (writeFile fs (iconFileName name) (.png (img.resize pixel_size pixel_size)))

/-- One image entry of the `Contents.json` document. -/
structure ManifestEntry where
  filename : String
  idiom : String
  scale : String
  size : String
deriving DecidableEq

/-- The ten image entries of the literal manifest string, lines 128-187,
transcribed in order. -/
def manifestImages : List ManifestEntry :=
  [⟨"icon_16x16.png", "mac", "1x", "16x16"⟩,
   ⟨"icon_16x16@2x.png", "mac", "2x", "16x16"⟩,
   ⟨"icon_32x32.png", "mac", "1x", "32x32"⟩,
   ⟨"icon_32x32@2x.png", "mac", "2x", "32x32"⟩,
   ⟨"icon_128x128.png", "mac", "1x", "128x128"⟩,
   ⟨"icon_128x128@2x.png", "mac", "2x", "128x128"⟩,
   ⟨"icon_256x256.png", "mac", "1x", "256x256"⟩,
   ⟨"icon_256x256@2x.png", "mac", "2x", "256x256"⟩,
   ⟨"icon_512x512.png", "mac", "1x", "512x512"⟩,
   ⟨"icon_512x512@2x.png", "mac", "2x", "512x512"⟩]

/-- The `author` field of the manifest's `info` block, line 190. -/
def manifestAuthor : String := "xcode"

/-- The `version` field of the manifest's `info` block, line 191. -/
def manifestVersion : Nat := 1

/-- Wraps a string in double quotes, for the JSON rendering. -/
def quoteStr (s : String) : String := "\"" ++ s ++ "\""

/-- Renders one image entry exactly as it appears in the literal manifest
string of the source. -/
def renderEntry (e : ManifestEntry) : String :=
  "    \x7b\n      \"filename\" : " ++ quoteStr e.filename ++
  ",\n      \"idiom\" : " ++ quoteStr e.idiom ++
  ",\n      \"scale\" : " ++ quoteStr e.scale ++
  ",\n      \"size\" : " ++ quoteStr e.size ++ "\n    \x7d"

/-- Joins rendered entries with the separator the literal uses. -/
def joinEntries : List String → String
  | [] => ""
  | [s] => s
  | s :: rest => s ++ ",\n" ++ joinEntries rest

/-- The `contents_json` literal of lines 126-193: the ten image entries
followed by the static `info` block. -/
def contents_json : String :=
  "\x7b\n  \"images\" : [\n" ++ joinEntries (manifestImages.map renderEntry) ++
  "\n  ],\n  \"info\" : \x7b\n    \"author\" : " ++ quoteStr manifestAuthor ++
  ",\n    \"version\" : " ++ toString manifestVersion ++ "\n  \x7d\n\x7d"

/-- The export step of `create_app_icon`, lines 103-196: save the ten
resized rasters, then write `Contents.json`. -/
def exportPhase (img : Image) (fs : FS) : FS :=
  writeFile (writeIcons img sizes fs) contentsPath (.text contents_json)

/-- The rendering segment threaded through the filesystem state: lines
7-100 perform no filesystem operation, so the state passes through
untouched and only the canvas is produced. -/
def renderPhase (canvas_size : Nat) (fs : FS) : Image × FS :=
  (render_icon canvas_size, fs)

/-- The whole program, `create_app_icon` (lines 5-196), as a filesystem
transformation: render the 1024-canvas, then export. Console prints carry
no filesystem effect and are not modeled. -/
def create_app_icon (fs : FS) : FS :=
  exportPhase (renderPhase 1024 fs).1 (renderPhase 1024 fs).2

/-- Alpha value a PNG decoder sees at a pixel of the saved file: an image
saved from RGB mode carries no alpha channel, so every pixel decodes as
fully opaque (255); an RGBA image carries its stored channel. -/
def savedAlphaAt (img : Image) (x y : Nat) : Nat :=
  match img.mode with
  | Mode.RGB => 255
  | Mode.RGBA => img.alphaCh x y

/-- Numeric value of the leading digit run of a string, so that the `size`
field "NxN" of a manifest entry yields N. -/
def digitsVal : List Char → Nat → Nat
  | [], acc => acc
  | c :: cs, acc => if c.isDigit then digitsVal cs (acc * 10 + (c.toNat - 48)) else acc

/-- Reads the leading natural number of a manifest `size` string. -/
def parseDim (s : String) : Nat := digitsVal s.data 0

/-- Multiplier denoted by a manifest `scale` string. -/
def scaleFactor (s : String) : Nat :=
  if s = "2x" then 2 else if s = "1x" then 1 else 0

/-- Two images with equal fields are equal. -/
theorem Image.ext2 {a b : Image} (hm : a.mode = b.mode) (hw : a.width = b.width)
    (hh : a.height = b.height) (hpx : a.px = b.px) (ha : a.alphaCh = b.alphaCh) : a = b := by
  cases a
  cases b
  cases hm
  cases hw
  cases hh
  cases hpx
  cases ha
  rfl

/-- Looking up the path just written returns the written data. -/
theorem writeFile_same (fs : FS) (name : String) (d : FileData) :
    writeFile fs name d name = some d := by
  simp [writeFile]

/-- Looking up any other path passes through to the underlying filesystem. -/
theorem writeFile_other (fs : FS) (name n : String) (d : FileData) (h : n ≠ name) :
    writeFile fs name d n = fs n := by
  simp [writeFile, h]

/-- The export loop's result at a path agrees across two base filesystems
whenever they agree at that path or the loop itself writes it. -/
theorem writeIcons_agree (img : Image) (l : List (Nat × String)) :
    ∀ (fs fs2 : FS) (n : String),
      (fs n = fs2 n ∨ ∃ ps ∈ l, n = iconFileName ps.2) →
      writeIcons img l fs n = writeIcons img l fs2 n := by
  induction l with
  | nil =>
    intro fs fs2 n h
    rcases h with h | ⟨ps, hps, hn⟩
    · exact h
    · exact absurd hps (List.not_mem_nil ps)
  | cons p rest ih =>
    intro fs fs2 n h
    obtain ⟨a, b⟩ := p
    simp only [writeIcons]
    apply ih
    rcases h with h | ⟨ps, hps, hn⟩
    · by_cases hb : n = iconFileName b
      · left
        rw [hb, writeFile_same, writeFile_same]
      · left
        rw [writeFile_other _ _ _ _ hb, writeFile_other _ _ _ _ hb]
        exact h
    · rcases List.mem_cons.1 hps with heq | hmem
      · subst heq
        left
        rw [hn, writeFile_same, writeFile_same]
      · exact Or.inr ⟨ps, hmem, hn⟩

/-- The export loop leaves every path it does not write unchanged. -/
theorem writeIcons_unchanged (img : Image) (l : List (Nat × String)) :
    ∀ (fs : FS) (n : String), (∀ ps ∈ l, n ≠ iconFileName ps.2) →
      writeIcons img l fs n = fs n := by
  induction l with
  | nil =>
    intro fs n _
    rfl
  | cons p rest ih =>
    intro fs n h
    obtain ⟨a, b⟩ := p
    simp only [writeIcons]
    rw [ih _ n (fun ps hps => h ps (List.mem_cons_of_mem _ hps))]
    exact writeFile_other _ _ _ _ (h (a, b) (List.mem_cons_self _ _))

/-- Folding the drawing interpreter over a nonempty scene draws the head
first, then the rest. -/
theorem foldl_drawPrim_cons (i : Image) (p : Prim) (l : List Prim) :
    List.foldl drawPrim i (p :: l) = List.foldl drawPrim (drawPrim i p) l := rfl

/-- The full scene is the background overlay followed by the overlay-free
scene. -/
theorem scene_cons :
    scenePrims (Int.ofNat 1024) =
      backgroundRRect (Int.ofNat 1024) :: scenePrimsNoOverlay (Int.ofNat 1024) := rfl

/-- C5: every drawn primitive of the 1024-canvas scene — the background
overlay, the two panes, all eight accent bars, and both arrows' shafts and
heads — has all of its coordinates within the canvas bounds [0, 1024]. -/
theorem c5_geometric_containment :
    ∀ p ∈ scenePrims 1024, ∀ c ∈ primCoords p, 0 ≤ c ∧ c ≤ 1024 := by decide

/-- Witness for C5 at the left pane's x coordinate. -/
theorem c5_geometric_containment_witness :
    leftPane ∈ scenePrims 1024 ∧ left_pane_x ∈ primCoords leftPane ∧
      0 ≤ left_pane_x ∧ left_pane_x ≤ 1024 :=
  ⟨by decide, by decide,
   (c5_geometric_containment leftPane (by decide) left_pane_x (by decide)).1,
   (c5_geometric_containment leftPane (by decide) left_pane_x (by decide)).2⟩

/-- C7: every export target's pixel dimension is at most the rendered
canvas's side length 1024, so every export is a down-sample or identity. -/
theorem c7_downsample_only :
    ∀ ps ∈ sizes, ps.1 ≤ (render_icon 1024).width := by decide

/-- Witness for C7 at the first export target. -/
theorem c7_downsample_only_witness :
    (16, "16x16") ∈ sizes ∧ 16 ≤ (render_icon 1024).width :=
  ⟨by decide, c7_downsample_only (16, "16x16") (by decide)⟩

/-- C8: the left pane holds strictly more accent bars than the right pane
(five against three), and in each pane the i-th bar's top y coordinate is
the common start offset `file_y_start` plus i times the fixed pitch
`file_spacing`, identical in both panes. -/
theorem c8_bar_stacks :
    leftBars.length > rightBars.length ∧
    (∀ i : Fin leftBars.length,
      barTop (leftBars.get i) = file_y_start + ((i : Nat) : Int) * file_spacing) ∧
    (∀ i : Fin rightBars.length,
      barTop (rightBars.get i) = file_y_start + ((i : Nat) : Int) * file_spacing) := by
  decide

/-- C6: each arrow head's base (the vertical edge joining its first and
third vertices) strictly exceeds both the drawn shaft's vertical extent and
the `arrow_width` constant, and neither head overlaps its destination pane:
every point of the right-pointing head lies at x strictly left of the right
pane's left edge, and every point of the left-pointing head lies at x
strictly right of the left pane's right edge. -/
theorem c6_arrow_heads :
    polyBaseExtent rightArrowHead > rectHeight rightArrowShaft ∧
    polyBaseExtent rightArrowHead > arrow_width ∧
    polyBaseExtent leftArrowHead > rectHeight leftArrowShaft ∧
    polyBaseExtent leftArrowHead > arrow_width ∧
    (∀ x y : Int, primRegion rightArrowHead x y = true → x < right_pane_x) ∧
    (∀ x y : Int, primRegion leftArrowHead x y = true → x > left_pane_x + pane_width) := by
  refine ⟨by decide, by decide, by decide, by decide, ?_, ?_⟩
  · intro x y h
    simp only [rightArrowHead, primRegion, inTriangle, triCross, arrow_end_x, right_pane_x,
      arrow_y, Bool.or_eq_true, Bool.and_eq_true, decide_eq_true_eq] at h ⊢
    omega
  · intro x y h
    simp only [leftArrowHead, primRegion, inTriangle, triCross, arrow_start_x, left_pane_x,
      pane_width, arrow_y2, Bool.or_eq_true, Bool.and_eq_true, decide_eq_true_eq] at h ⊢
    omega

/-- Witness for C6: the two arrow-head tips satisfy the head-region bounds. -/
theorem c6_arrow_heads_witness :
    (primRegion rightArrowHead 534 512 = true ∧ (534 : Int) < right_pane_x) ∧
    (primRegion leftArrowHead 490 612 = true ∧ (490 : Int) > left_pane_x + pane_width) :=
  ⟨⟨by decide, c6_arrow_heads.2.2.2.2.1 534 512 (by decide)⟩,
   ⟨by decide, c6_arrow_heads.2.2.2.2.2 490 612 (by decide)⟩⟩

/-- C3: the rendering step, exposed over its canvas-size input, is a pure
deterministic function of `canvas_size` alone — its canvas does not depend
on the filesystem state, it changes no filesystem state (no side effects
before the export step), and the whole program is exactly this rendering
step followed by the export step. -/
theorem c3_render_pure (s : Nat) (fs fs2 : FS) :
    (renderPhase s fs).1 = render_icon s ∧
    (renderPhase s fs).1 = (renderPhase s fs2).1 ∧
    (renderPhase s fs).2 = fs ∧
    create_app_icon fs = exportPhase (renderPhase 1024 fs).1 (renderPhase 1024 fs).2 :=
  ⟨rfl, rfl, rfl, rfl⟩

/-- C4: rendering a fixed canvas size twice yields the same pixel value at
every coordinate, and running the whole generation twice against the same
filesystem yields exactly the filesystem of a single run (overwrite
semantics, no accumulation). -/
theorem c4_determinism_idempotence (S : Nat) (fs : FS) :
    (∀ x y : Nat, (render_icon S).px x y = (render_icon S).px x y) ∧
    create_app_icon (create_app_icon fs) = create_app_icon fs := by
  refine ⟨fun x y => rfl, ?_⟩
  funext n
  show exportPhase (render_icon 1024) (exportPhase (render_icon 1024) fs) n =
    exportPhase (render_icon 1024) fs n
  by_cases hc : n = contentsPath
  · simp only [exportPhase]
    rw [hc, writeFile_same, writeFile_same]
  · simp only [exportPhase]
    rw [writeFile_other _ _ _ _ hc, writeFile_other _ _ _ _ hc]
    by_cases hk : ∃ ps ∈ sizes, n = iconFileName ps.2
    · exact writeIcons_agree _ _ _ _ _ (Or.inr hk)
    · push_neg at hk
      have hbase : writeFile (writeIcons (render_icon 1024) sizes fs) contentsPath
          (.text contents_json) n = fs n := by
        rw [writeFile_other _ _ _ _ hc]
        exact writeIcons_unchanged _ _ _ _ hk
      exact writeIcons_agree _ _ _ _ _ (Or.inl hbase)

/-- C9: the background overlay of lines 17-23 is filled with exactly the
color the canvas is created with, drawing it on the fresh canvas leaves
every pixel (and every other field) of the canvas unchanged, and the
variant renderer without that step produces an identical final image. -/
theorem c9_overlay_noop :
    bg_color = canvas_init_color ∧
    drawPrim (Image.new Mode.RGB 1024 1024 canvas_init_color) (backgroundRRect 1024) =
      Image.new Mode.RGB 1024 1024 canvas_init_color ∧
    render_icon 1024 = render_icon_no_overlay 1024 := by
  have h2 : drawPrim (Image.new Mode.RGB 1024 1024 canvas_init_color) (backgroundRRect 1024) =
      Image.new Mode.RGB 1024 1024 canvas_init_color := by
    apply Image.ext2
    · rfl
    · rfl
    · rfl
    · funext x y
      show (if primRegion (backgroundRRect 1024) (Int.ofNat x) (Int.ofNat y)
            then primColor (backgroundRRect 1024)
            else (Image.new Mode.RGB 1024 1024 canvas_init_color).px x y) =
          (Image.new Mode.RGB 1024 1024 canvas_init_color).px x y
      split
      · rfl
      · rfl
    · rfl
  have h2i : drawPrim (Image.new Mode.RGB 1024 1024 canvas_init_color)
      (backgroundRRect (Int.ofNat 1024)) = Image.new Mode.RGB 1024 1024 canvas_init_color := h2
  refine ⟨rfl, h2, ?_⟩
  rw [render_icon, render_icon_no_overlay, scene_cons, foldl_drawPrim_cons, h2i]

/-- C1: a successful run produces exactly the ten raster files, in the fixed
order of pixel dimensions 16, 32, 32, 64, 128, 256, 256, 512, 512, 1024
paired with the role labels 16x16 through 512x512@2x, each saved under
`icon_<role>.png` in the output directory with width and height equal to its
pixel dimension; and the run writes nothing else besides the manifest. -/
theorem c1_output_files (fs : FS) :
    sizes = [(16, "16x16"), (32, "16x16@2x"), (32, "32x32"), (64, "32x32@2x"),
      (128, "128x128"), (256, "128x128@2x"), (256, "256x256"), (512, "256x256@2x"),
      (512, "512x512"), (1024, "512x512@2x")] ∧
    sizes.length = 10 ∧
    (∀ ps ∈ sizes, ∃ img : Image,
      create_app_icon fs (iconFileName ps.2) = some (.png img) ∧
      img.width = ps.1 ∧ img.height = ps.1) ∧
    (∀ n : String, create_app_icon fs n ≠ fs n →
      n = contentsPath ∨ ∃ ps ∈ sizes, n = iconFileName ps.2) := by
  refine ⟨rfl, rfl, ?_, ?_⟩
  · intro ps hps
    fin_cases hps <;> exact ⟨_, rfl, rfl, rfl⟩
  · intro n hn
    by_cases hc : n = contentsPath
    · exact Or.inl hc
    · by_cases hk : ∃ ps ∈ sizes, n = iconFileName ps.2
      · exact Or.inr hk
      · exfalso
        apply hn
        push_neg at hk
        show exportPhase (render_icon 1024) fs n = fs n
        simp only [exportPhase]
        rw [writeFile_other _ _ _ _ hc]
        exact writeIcons_unchanged _ _ _ _ hk

/-- Witness for C1 at the first export target over the empty filesystem. -/
theorem c1_output_files_witness :
    (16, "16x16") ∈ sizes ∧
    (∃ img : Image, create_app_icon fsEmpty (iconFileName ("16x16")) = some (.png img) ∧
      img.width = 16 ∧ img.height = 16) :=
  ⟨by decide, (c1_output_files fsEmpty).2.2.1 (16, "16x16") (by decide)⟩

/-- C2: the emitted `Contents.json` holds exactly ten image entries, every
entry's filename is `icon_<role>.png` for one of the ten exported files
(which therefore exists after a successful run), the idiom field is the
constant "mac" in all ten entries, and every entry's size/scale pair
matches the exported pixel dimension: scale 1x pairs an NxN size string
with an N-pixel square file, scale 2x with a 2N-pixel square file. -/
theorem c2_manifest (fs : FS) :
    manifestImages.length = 10 ∧
    create_app_icon fs contentsPath = some (.text contents_json) ∧
    (∀ e ∈ manifestImages, e.idiom = "mac") ∧
    (∀ e ∈ manifestImages, ∃ ps ∈ sizes,
      e.filename = "icon_" ++ ps.2 ++ ".png" ∧
      ∃ img : Image,
        create_app_icon fs (output_dir ++ "/" ++ e.filename) = some (.png img) ∧
        img.width = scaleFactor e.scale * parseDim (e.size) ∧
        img.height = scaleFactor e.scale * parseDim (e.size)) := by
  refine ⟨rfl, rfl, by decide, ?_⟩
  intro e he
  fin_cases he
  · exact ⟨(16, "16x16"), by decide, rfl, _, rfl, rfl, rfl⟩
  · exact ⟨(32, "16x16@2x"), by decide, rfl, _, rfl, rfl, rfl⟩
  · exact ⟨(32, "32x32"), by decide, rfl, _, rfl, rfl, rfl⟩
  · exact ⟨(64, "32x32@2x"), by decide, rfl, _, rfl, rfl, rfl⟩
  · exact ⟨(128, "128x128"), by decide, rfl, _, rfl, rfl, rfl⟩
  · exact ⟨(256, "128x128@2x"), by decide, rfl, _, rfl, rfl, rfl⟩
  · exact ⟨(256, "256x256"), by decide, rfl, _, rfl, rfl, rfl⟩
  · exact ⟨(512, "256x256@2x"), by decide, rfl, _, rfl, rfl, rfl⟩
  · exact ⟨(512, "512x512"), by decide, rfl, _, rfl, rfl, rfl⟩
  · exact ⟨(1024, "512x512@2x"), by decide, rfl, _, rfl, rfl, rfl⟩

/-- Witness for C2 at the first manifest entry over the empty filesystem. -/
theorem c2_manifest_witness :
    ∃ ps ∈ sizes, "icon_16x16.png" = "icon_" ++ ps.2 ++ ".png" ∧
      ∃ img : Image,
        create_app_icon fsEmpty (output_dir ++ "/" ++ "icon_16x16.png") = some (.png img) ∧
        img.width = scaleFactor ("1x") * parseDim ("16x16") ∧
        img.height = scaleFactor ("1x") * parseDim ("16x16") :=
  (c2_manifest fsEmpty).2.2.2 ⟨"icon_16x16.png", "mac", "1x", "16x16"⟩ (by decide)

/-- C10: the canvas is rendered in RGB mode, every exported raster keeps
RGB mode through the resize, and a PNG saved from RGB mode decodes as
fully opaque at every pixel. -/
theorem c10_no_alpha (fs : FS) :
    (render_icon 1024).mode = Mode.RGB ∧
    ∀ ps ∈ sizes, ∃ img : Image,
      create_app_icon fs (iconFileName ps.2) = some (.png img) ∧
      img.mode = Mode.RGB ∧
      ∀ x y : Nat, savedAlphaAt img x y = 255 := by
  refine ⟨rfl, ?_⟩
  intro ps hps
  fin_cases hps <;> exact ⟨_, rfl, rfl, fun x y => rfl⟩

/-- Witness for C10 at the first export target over the empty filesystem. -/
theorem c10_no_alpha_witness :
    (16, "16x16") ∈ sizes ∧
    ∃ img : Image, create_app_icon fsEmpty (iconFileName ("16x16")) = some (.png img) ∧
      img.mode = Mode.RGB ∧ ∀ x y : Nat, savedAlphaAt img x y = 255 :=
  ⟨by decide, (c10_no_alpha fsEmpty).2 (16, "16x16") (by decide)⟩

end GenerateIcon
